import Mathlib

/-!
Verification development for the holo1.5-endpoint repository.

The repository consists of a FastAPI app (`app/main.py`) exposing an
OpenAI-compatible chat-completions endpoint over a vision-language model,
and a serverless adapter (`handler.py`) that polls the app for readiness
and dispatches jobs to it with bounded retry.

This file gives a shallow embedding of the request-normalization,
response-formatting and orchestration logic.  External collaborators
(the PIL image library, the base64 codec, the HTTP client, the model and
its tokenizer/processor) are abstracted as explicit environment records
of total functions; everything the repository itself computes is
translated directly from the Python source.
-/

namespace Holo

/-! ## Data model -/

/-- A decoded bitmap as produced by `PIL.Image.open`: its color `mode`
string (for example "RGB", "RGBA", "LA") and an abstract pixel payload. -/
structure Bitmap where
  mode : String
  data : List Nat
  deriving Repr, DecidableEq

/-- An HTTP error as raised via `HTTPException(status_code=..., detail=...)`. -/
structure HErr where
  status : Nat
  detail : String
  deriving Repr, DecidableEq

/-- A content part of a canonical (Qwen-format) message, as built in
`chat_completions`: either `{"type": "text", "text": t}` or
`{"type": "image", "image": pil_image}`. -/
inductive QwenPart
  | text (t : String)
  | image (img : Bitmap)
  deriving Repr, DecidableEq

/-- A canonical message `{"role": r, "content": parts}` handed to the
processor and model. -/
structure QwenMessage where
  role : String
  content : List QwenPart
  deriving Repr, DecidableEq

/-- PIL color modes that carry an alpha channel. -/
def alphaModes : List String := ["RGBA", "LA", "PA", "RGBa", "La"]

/-- Whether a color mode string carries an alpha channel. -/
def modeHasAlpha (m : String) : Bool := alphaModes.contains m

/-! ## Image Resolver (`fetch_image_from_url`, app/main.py lines 118-134)

The base64 codec, PIL image decoding and the network are external
collaborators, abstracted as an environment of total functions.  A
`none`/`Except.error` result models the corresponding Python exception. -/

/-- External collaborators of the Image Resolver.
`b64decode` models `base64.b64decode` (`none` = `binascii.Error`);
`imageOpen` models `PIL.Image.open` over raw bytes (`none` = decode error);
`httpGet` models `httpx` GET, returning a status code and body bytes, or a
transport error message. -/
structure ImgEnv where
  b64decode : String → Option (List Nat)
  imageOpen : List Nat → Option Bitmap
  httpGet : String → Except String (Nat × List Nat)

/-- The `HTTPException(400, "Failed to fetch image: ...")` raised by
`fetch_image_from_url` on any failure. -/
def fetchErr (msg : String) : HErr := ⟨400, "Failed to fetch image: " ++ msg⟩

/-- Python's `s.startswith(pre)`. -/
def strStartsWith (s pre : String) : Bool := pre.data.isPrefixOf s.data

/-- Split a character list at its first comma. -/
def splitFirstCommaList : List Char → Option (List Char × List Char)
  | [] => none
  | c :: rest =>
    if c = ',' then some ([], rest)
    else
      match splitFirstCommaList rest with
      | none => none
      | some (a, b) => some (c :: a, b)

/-- Python's `s.split(",", 1)` followed by unpacking into two variables:
`some (before, after)` when the string contains a comma (split at the
first one), `none` when unpacking fails because there is no comma. -/
def splitFirstComma (s : String) : Option (String × String) :=
  match splitFirstCommaList s.data with
  | none => none
  | some (a, b) => some (⟨a⟩, ⟨b⟩)

/-- `fetch_image_from_url` (app/main.py lines 118-134).  Returns the
result together with the number of network GETs performed.  For a
`data:image` reference: split on the first comma, base64-decode the
payload, decode the bytes as an image — with no network call.  Otherwise
GET the URL (counted), `raise_for_status` on a non-2xx code, and decode
the body.  Every failure becomes the 400 `fetchErr`. -/
def fetch_image_from_url (env : ImgEnv) (url : String) :
    Except HErr Bitmap × Nat :=
  if strStartsWith url "data:image" then
    match splitFirstComma url with
    | none => (.error (fetchErr "not enough values to unpack"), 0)
    | some (_, payload) =>
      match env.b64decode payload with
      | none => (.error (fetchErr "invalid base64"), 0)
      | some bytes =>
        match env.imageOpen bytes with
        | none => (.error (fetchErr "cannot identify image file"), 0)
        | some img => (.ok img, 0)
  else
    match env.httpGet url with
    | .error e => (.error (fetchErr e), 1)
    | .ok (status, body) =>
      if 200 ≤ status ∧ status < 300 then
        match env.imageOpen body with
        | none => (.error (fetchErr "cannot identify image file"), 1)
        | some img => (.ok img, 1)
      else (.error (fetchErr ("status error " ++ toString status)), 1)

/-! ## Prompt Normalizer (`chat_completions` message loop, lines 178-219) -/

/-- A typed content part of an incoming wire message, after the
`item_dict` normalization at line 190.
`text t` is a part with `type == "text"` and optional `text` field;
`imageUrl u` is a part with `type == "image_url"` whose `image_url`
field is a dict with optional `url` key;
`imageUrlStr s` is a part whose `image_url` field is a raw string;
`other` is any part with an unrecognized `type` (silently ignored). -/
inductive WirePart
  | text (t : Option String)
  | imageUrl (u : Option String)
  | imageUrlStr (s : String)
  | other
  deriving Repr, DecidableEq

/-- The `content` field of an incoming message: a plain string or a list
of typed parts. -/
inductive MsgContent
  | str (s : String)
  | parts (l : List WirePart)
  deriving Repr, DecidableEq

/-- An incoming OpenAI-shape message `{role, content}`. -/
structure WireMessage where
  role : String
  content : MsgContent
  deriving Repr, DecidableEq

/-- An incoming chat-completion request body (pydantic defaults:
`max_tokens = 512`, `stream = False`). -/
structure ChatRequest where
  model : String
  messages : List WireMessage
  max_tokens : Nat := 512
  stream : Bool := false
  deriving Repr, DecidableEq

/-- The roles accepted by the message loop (line 179); any other role is
skipped with `continue`. -/
def supportedRole (r : String) : Bool :=
  r == "user" || r == "assistant" || r == "system"

/-- The RGBA special-case at lines 207-208: `if pil_image.mode == 'RGBA':
pil_image = pil_image.convert('RGB')`.  Only the exact mode "RGBA" is
converted; every other mode passes through unchanged. -/
def convertIfRGBA (img : Bitmap) : Bitmap :=
  if img.mode = "RGBA" then { img with mode := "RGB" } else img

/-- Process one typed content part (lines 190-210).  Returns the canonical
parts it contributes (empty when skipped) and the number of network GETs,
or the `HTTPException` propagated from a failed image fetch.
An `image_url` part whose `url` is missing or empty is skipped without
fetching (the `if url:` guard at line 203). -/
def processOnePart (env : ImgEnv) : WirePart → Except HErr (List QwenPart) × Nat
  | .text t => (.ok [QwenPart.text (t.getD "")], 0)
  | .imageUrl u =>
    let url := u.getD ""
    if url = "" then (.ok [], 0)
    else
      match fetch_image_from_url env url with
      | (.error e, n) => (.error e, n)
      | (.ok img, n) => (.ok [QwenPart.image (convertIfRGBA img)], n)
  | .imageUrlStr s =>
    if s = "" then (.ok [], 0)
    else
      match fetch_image_from_url env s with
      | (.error e, n) => (.error e, n)
      | (.ok img, n) => (.ok [QwenPart.image (convertIfRGBA img)], n)
  | .other => (.ok [], 0)

/-- Process a list of typed content parts in order, concatenating their
contributions and summing network GETs; the first failure aborts. -/
def processParts (env : ImgEnv) : List WirePart → Except HErr (List QwenPart) × Nat
  | [] => (.ok [], 0)
  | p :: rest =>
    match processOnePart env p with
    | (.error e, n) => (.error e, n)
    | (.ok parts, n) =>
      match processParts env rest with
      | (.error e, k) => (.error e, n + k)
      | (.ok more, k) => (.ok (parts ++ more), n + k)

/-- Process one incoming message (lines 178-216): an unsupported role is
skipped; a string content becomes one text part; a typed-part list is
processed in order; a message contributes (`some`) only when it produced
at least one content part. -/
def processMessage (env : ImgEnv) (m : WireMessage) :
    Except HErr (Option QwenMessage) × Nat :=
  if supportedRole m.role then
    match m.content with
    | .str s => (.ok (some ⟨m.role, [QwenPart.text s]⟩), 0)
    | .parts l =>
      match processParts env l with
      | (.error e, n) => (.error e, n)
      | (.ok [], n) => (.ok none, n)
      | (.ok ps, n) => (.ok (some ⟨m.role, ps⟩), n)
  else (.ok none, 0)

/-- Normalize the whole message list into the canonical `qwen_messages`
sequence, dropping messages that contributed nothing. -/
def normalizeMessages (env : ImgEnv) : List WireMessage → Except HErr (List QwenMessage) × Nat
  | [] => (.ok [], 0)
  | m :: rest =>
    match processMessage env m with
    | (.error e, n) => (.error e, n)
    | (.ok o, n) =>
      match normalizeMessages env rest with
      | (.error e, k) => (.error e, n + k)
      | (.ok ms, k) => (.ok (o.toList ++ ms), n + k)

/-! ## Generation Invoker and Response Formatter
(`chat_completions`, lines 158-286) -/

/-- Token-usage accounting of the OpenAI-shape response (lines 274-278). -/
structure Usage where
  prompt_tokens : Nat
  completion_tokens : Nat
  total_tokens : Nat
  deriving Repr, DecidableEq

/-- The OpenAI-shape response envelope built at lines 259-279
(`choices[0]` flattened into `content`/`finish_reason`). -/
structure ChatResponse where
  id : String
  object : String
  created : Nat
  model : String
  content : String
  finish_reason : String
  usage : Usage
  deriving Repr, DecidableEq

/-- The external collaborators of the chat-completions endpoint:
the Image Resolver environment, the model/processor load flags, the
tokenizer (`apply_chat_template` + `processor(...)` producing
`inputs.input_ids[0]`), the generation capability (`model.generate`,
returning the raw prompt+completion token sequence), the decoder
(`batch_decode`), and the ambient clock and uuid-hex source. -/
structure ChatEnv where
  img : ImgEnv
  modelLoaded : Bool
  processorLoaded : Bool
  tokenizePrompt : List QwenMessage → List Nat
  generate : List Nat → Nat → List Nat
  decode : List Nat → String
  now : Nat
  freshHex : String

/-- `chat_completions` (app/main.py lines 158-286).  Returns the result
together with the number of `model.generate` invocations (0 or 1).
503 when model/processor are unloaded; 400 on `stream`; normalize the
messages (propagating any fetch `HTTPException`); 400 when zero canonical
messages survive; otherwise tokenize, generate once, strip the
prompt-length prefix from the raw output, decode, and build the
OpenAI-shape envelope with `usage` computed from the two lengths. -/
def chat_completions (env : ChatEnv) (req : ChatRequest) :
    Except HErr ChatResponse × Nat :=
  if !env.modelLoaded || !env.processorLoaded then
    (.error ⟨503, "Model not loaded"⟩, 0)
  else if req.stream then
    (.error ⟨400, "Streaming not supported yet"⟩, 0)
  else
    match normalizeMessages env.img req.messages with
    | (.error e, _) => (.error e, 0)
    | (.ok [], _) => (.error ⟨400, "No valid messages provided"⟩, 0)
    | (.ok msgs, _) =>
      let inIds := env.tokenizePrompt msgs
      let rawOut := env.generate inIds req.max_tokens
      let trimmed := rawOut.drop inIds.length
      (.ok { id := "chatcmpl-" ++ env.freshHex
             object := "chat.completion"
             created := env.now
             model := req.model
             content := env.decode trimmed
             finish_reason := "stop"
             usage := ⟨inIds.length, trimmed.length,
                       inIds.length + trimmed.length⟩ }, 1)

/-! ## Service Orchestrator (`handler.py`) -/

/-- A JSON value, modelling the Python dicts the handler manipulates. -/
inductive Json
  | null
  | bool (b : Bool)
  | str (s : String)
  | num (n : Nat)
  | arr (items : List Json)
  | obj (fields : List (String × Json))
  deriving Repr

/-- First-match key lookup in an object's field list (Python `dict.get`). -/
def lookupField : List (String × Json) → String → Option Json
  | [], _ => none
  | (k, v) :: rest, key => if k = key then some v else lookupField rest key

/-- `d.get(key)`: `some v` when the key is present, `none` otherwise
(also `none` on a non-object, where the handler would not look anyway). -/
def Json.get (j : Json) (key : String) : Option Json :=
  match j with
  | .obj fields => lookupField fields key
  | _ => none

/-- Python truthiness of a JSON value (`if not image_url: ...`). -/
def Json.truthy : Json → Bool
  | .null => false
  | .bool b => b
  | .str s => !(s == "")
  | .num n => !(n == 0)
  | .arr l => !l.isEmpty
  | .obj f => !f.isEmpty

/-- `MAX_RETRIES` (handler.py line 17). -/
def MAX_RETRIES : Nat := 3

/-- `RETRY_DELAY` in seconds (handler.py line 18). -/
def RETRY_DELAY : Nat := 1

/-- The model name hard-coded into the translated payload (line 75). -/
def DEFAULT_MODEL : String := "Hcompany/Holo1.5-7B"

/-- The uniform job envelope: `status` is "success" or "failed", with
`output` present on success and `error` present on failure. -/
structure JobResult where
  status : String
  output : Option Json
  error : Option String
  deriving Repr

/-- `{"status": "success", "output": body}` (lines 107-110). -/
def successEnvelope (body : Json) : JobResult := ⟨"success", some body, none⟩

/-- `{"status": "failed", "error": msg}` (lines 118-121 / 130-133). -/
def failedEnvelope (msg : String) : JobResult := ⟨"failed", none, some msg⟩

/-- Outcome of one HTTP POST attempt against the downstream endpoint:
a response with a status code, response text and parsed JSON body, or a
raised transport exception with its message. -/
inductive AttemptOutcome
  | resp (status : Nat) (text : String) (body : Json)
  | exn (msg : String)
  deriving Repr

/-- An attempt succeeds exactly when `response.status_code == 200`
(line 105); on success the parsed body is returned. -/
def attemptOk : AttemptOutcome → Option Json
  | .resp 200 _ body => some body
  | _ => none

/-- The failure message recorded for a failed attempt
(lines 112 and 124). -/
def attemptErrMsg : AttemptOutcome → String
  | .resp code text _ => "API returned status " ++ toString code ++ ": " ++ text
  | .exn m => "Request failed: " ++ m

/-- The retry loop `for attempt in range(MAX_RETRIES)` (lines 98-133),
with `f i` the outcome of attempt `i` and the remaining attempt count as
fuel.  Returns the envelope, the number of attempts made, and the number
of `asyncio.sleep(RETRY_DELAY)` calls (each of `RETRY_DELAY` seconds):
a sleep happens after a failed attempt only when another attempt remains.
The fuel-0 case is the unreachable fall-through at lines 135-138. -/
def runAttemptsAux (f : Nat → AttemptOutcome) : Nat → Nat → JobResult × Nat × Nat
  | _, 0 => (failedEnvelope "All retry attempts failed", 0, 0)
  | attempt, r + 1 =>
    match attemptOk (f attempt) with
    | some body => (successEnvelope body, 1, 0)
    | none =>
      if r = 0 then (failedEnvelope (attemptErrMsg (f attempt)), 1, 0)
      else
        let (res, made, sleeps) := runAttemptsAux f (attempt + 1) r
        (res, made + 1, sleeps + 1)

/-- The dispatch phase of `process_request`: run the retry loop from
attempt 0 with `MAX_RETRIES` attempts available. -/
def dispatch (f : Nat → AttemptOutcome) : JobResult × Nat × Nat :=
  runAttemptsAux f 0 MAX_RETRIES

/-- The OpenAI-shape payload built from a simplified job input
(handler.py lines 74-94): one user message whose content list holds the
text part first and the image part second. -/
def simplePayload (text imageUrl maxTokens : Json) : Json :=
  .obj [("model", .str DEFAULT_MODEL),
        ("messages", .arr [
          .obj [("role", .str "user"),
                ("content", .arr [
                  .obj [("type", .str "text"), ("text", text)],
                  .obj [("type", .str "image_url"),
                        ("image_url", .obj [("url", imageUrl)])]])]]),
        ("max_tokens", maxTokens)]

/-- The shape-discrimination and translation step of `process_request`
(lines 56-94): an input with a `messages` key is forwarded unchanged;
otherwise `image_url`, `text` (default "Describe this image") and
`max_tokens` (default 512) are read, a falsy `image_url` fails fast,
and the simplified shape is translated into `simplePayload`. -/
def buildPayload (input : Json) : Except String Json :=
  match input.get "messages" with
  | some _ => .ok input
  | none =>
    let imageUrl := (input.get "image_url").getD .null
    let text := (input.get "text").getD (.str "Describe this image")
    let maxTokens := (input.get "max_tokens").getD (.num 512)
    if imageUrl.truthy then .ok (simplePayload text imageUrl maxTokens)
    else .error "Missing required field: image_url"

/-- `process_request` (handler.py lines 39-138): build the payload, then
dispatch with retries.  Returns the envelope together with the number of
HTTP attempts made and the number of sleeps; a validation failure returns
before any HTTP call. -/
def process_request (f : Nat → AttemptOutcome) (input : Json) :
    JobResult × Nat × Nat :=
  match buildPayload input with
  | .error e => (failedEnvelope e, 0, 0)
  | .ok _ => dispatch f

/-! ## Await-ready phase (`wait_for_service`, handler.py lines 21-36) -/

/-- The poll interval in seconds (`asyncio.sleep(2)`, line 35). -/
def POLL_INTERVAL : Nat := 2

/-- The default `max_wait` of `wait_for_service` (line 21). -/
def DEFAULT_MAX_WAIT : Nat := 60

/-- Outcome of one GET of the health endpoint: a response with status
code and JSON body, or a raised exception (caught and ignored). -/
inductive PollOutcome
  | exn
  | resp (statusCode : Nat) (body : Json)
  deriving Repr

/-- `data.get("status") == "healthy"`: true exactly for the string. -/
def isHealthyStatus : Option Json → Bool
  | some (.str s) => s == "healthy"
  | _ => false

/-- One poll succeeds (lines 28-32) when the HTTP status is 200 and the
body reports `status == "healthy"` and a truthy `model_loaded`, all in
the same response. -/
def pollGood : PollOutcome → Bool
  | .exn => false
  | .resp code body =>
    code == 200 && isHealthyStatus (body.get "status") &&
      ((body.get "model_loaded").getD .null).truthy

/-- Number of loop iterations of `while time.time() - start_time <
max_wait` when each iteration takes `POLL_INTERVAL` seconds (the
`asyncio.sleep(2)` closing each iteration): polls happen at elapsed
times 0, 2, 4, ..., so there are ⌈max_wait / 2⌉ of them. -/
def numPolls (maxWait : Nat) : Nat :=
  (maxWait + POLL_INTERVAL - 1) / POLL_INTERVAL

/-- The polling loop with fuel: `polls i` is the outcome of the i-th GET.
Returns whether the service became ready and how many polls were made. -/
def waitFuel (polls : Nat → PollOutcome) : Nat → Nat → Bool × Nat
  | idx, 0 => (false, idx)
  | idx, n + 1 =>
    if pollGood (polls idx) then (true, idx + 1)
    else waitFuel polls (idx + 1) n

/-- `wait_for_service` (handler.py lines 21-36): poll every
`POLL_INTERVAL` seconds until a poll succeeds or `maxWait` seconds have
elapsed; `false` on timeout. -/
def wait_for_service (polls : Nat → PollOutcome)
    (maxWait : Nat := DEFAULT_MAX_WAIT) : Bool × Nat :=
  waitFuel polls 0 (numPolls maxWait)

/-! ## Simple endpoint, modelled from the spec -/

/-- A simple-shape request: the uploaded image file's bytes and the
submitted text field. -/
structure SimpleRequest where
  image : List Nat
  text : String
  deriving Repr, DecidableEq

/-- The simple endpoint's outcome: the `{success, text_input,
model_output}` envelope, HTTP 503, or HTTP 500 with a message. -/
inductive SimpleResult
  | ok (text_input : String) (model_output : String)
  | unavailable
  | internalError (msg : String)
  deriving Repr, DecidableEq

/-- Modelled from the spec: the simple multipart endpoint (spec §4.2(a),
§4.4 simple mode, §6 "Simple endpoint") is described in the spec but
absent from `src/` — only the chat-completions endpoint exists in
`app/main.py`.  Following the spec's words: reject with 503 when the
model capability is unavailable; decode the uploaded blob (any internal
failure → 500 with a message); build exactly one user message
`[Text(text), Image(blob)]` (text first); invoke generation once and
strip the prompt prefix; return `{success: true, text_input: the
submitted text unmodified, model_output: the decoded completion}`. -/
def predict (env : ChatEnv) (formDecode : List Nat → Option Bitmap)
    (maxTok : Nat) (req : SimpleRequest) : SimpleResult :=
  if !env.modelLoaded || !env.processorLoaded then .unavailable
  else
    match formDecode req.image with
    | none => .internalError "Prediction error: cannot identify image file"
    | some img =>
      let msgs := [⟨"user", [QwenPart.text req.text,
                             QwenPart.image (convertIfRGBA img)]⟩]
      let inIds := env.tokenizePrompt msgs
      let trimmed := (env.generate inIds maxTok).drop inIds.length
      .ok req.text (env.decode trimmed)

/-! ## Concrete fixtures for closed instantiations -/

/-- An image environment whose decoder yields a grayscale+alpha ("LA")
bitmap, with the network unreachable. -/
def imgEnvLA : ImgEnv :=
  { b64decode := fun _ => some [7]
    imageOpen := fun _ => some ⟨"LA", [7]⟩
    httpGet := fun _ => .error "network unreachable" }

/-- An image environment whose decoder yields an RGBA bitmap, with the
network unreachable. -/
def imgEnvRGBA : ImgEnv :=
  { b64decode := fun _ => some [3]
    imageOpen := fun _ => some ⟨"RGBA", [3]⟩
    httpGet := fun _ => .error "network unreachable" }

/-- A fully loaded chat environment with a toy tokenizer and a generation
capability that echoes the prompt and appends `max_tokens` fresh tokens. -/
def chatEnv1 : ChatEnv :=
  { img := imgEnvRGBA
    modelLoaded := true
    processorLoaded := true
    tokenizePrompt := fun _ => [0, 1, 2]
    generate := fun ids n => ids ++ List.replicate n 9
    decode := fun _ => "a completion"
    now := 1700000000
    freshHex := "1a2b3c4d" }

/-- A one-message text request. -/
def chatReq1 : ChatRequest :=
  { model := "Hcompany/Holo1.5-7B"
    messages := [⟨"user", .str "hello"⟩]
    max_tokens := 4
    stream := false }

/-- The response `chat_completions chatEnv1 chatReq1` produces. -/
def chatResp1 : ChatResponse :=
  { id := "chatcmpl-1a2b3c4d"
    object := "chat.completion"
    created := 1700000000
    model := "Hcompany/Holo1.5-7B"
    content := "a completion"
    finish_reason := "stop"
    usage := ⟨3, 4, 7⟩ }

/-- A request whose messages all normalize away: an unsupported role and
a supported role whose parts are all skipped. -/
def chatReq2 : ChatRequest :=
  { model := "m"
    messages := [⟨"tool", .str "x"⟩, ⟨"user", .parts [.other, .imageUrl none]⟩]
    max_tokens := 512
    stream := false }

/-- A dispatch target that raises on the first two attempts and returns
HTTP 200 on the third. -/
def attemptsFlaky : Nat → AttemptOutcome := fun i =>
  if i < 2 then .exn "boom" else .resp 200 "" (.str "body")

/-- A dispatch target that returns HTTP 500 on every attempt, with the
attempt index in the response text. -/
def attemptsAllFail : Nat → AttemptOutcome := fun i =>
  .resp 500 ("server error " ++ toString i) .null

/-- A simplified job input with no `image_url` key. -/
def jobInputNoUrl : Json := .obj [("text", .str "hi")]

/-- A simplified job input with an image URL and text but no
`max_tokens`. -/
def jobInputSimple : Json :=
  .obj [("image_url", .str "http://example.com/img.png"),
        ("text", .str "what is this")]

/-- A job input already in OpenAI shape (has a `messages` key). -/
def jobInputOpenAI : Json :=
  .obj [("model", .str DEFAULT_MODEL), ("messages", .arr [])]

/-- A health endpoint that reports 503 on the first two polls and
healthy+loaded on the third. -/
def pollsThird : Nat → PollOutcome := fun i =>
  if i < 2 then .resp 503 (.obj [("status", .str "starting")])
  else .resp 200 (.obj [("status", .str "healthy"), ("model_loaded", .bool true)])

/-! ## Helper lemmas -/

/-- A message with an unsupported role is dropped silently, contributing
nothing and performing no fetch. -/
theorem processMessage_unsupported (env : ImgEnv) (m : WireMessage)
    (h : supportedRole m.role = false) :
    processMessage env m = (.ok none, 0) := by
  simp [processMessage, h]

/-- When every message normalizes away, the whole normalization yields
the empty canonical sequence. -/
theorem normalizeMessages_all_none (env : ImgEnv) (ms : List WireMessage)
    (h : ∀ m ∈ ms, (processMessage env m).1 = Except.ok none) :
    ∃ k, normalizeMessages env ms = (.ok [], k) := by
  induction ms with
  | nil => exact ⟨0, rfl⟩
  | cons m rest ih =>
    obtain ⟨k, hk⟩ := ih (fun x hx => h x (List.mem_cons_of_mem _ hx))
    have hm := h m (List.mem_cons_self _ _)
    rcases hpm : processMessage env m with ⟨a, n⟩
    rw [hpm] at hm
    simp only at hm
    subst hm
    exact ⟨n + k, by simp [normalizeMessages, hpm, hk]⟩

/-! ## C1 -/

/-- C1: for every successful chat-completions response, `usage.total_tokens`
equals `usage.prompt_tokens + usage.completion_tokens`, where
`prompt_tokens` is the length of the input token sequence handed to
generation and `completion_tokens` is the length of the raw model output
with that prompt-length prefix stripped; the sum is computed from these
two counts. -/
theorem usage_total_tokens_correct (env : ChatEnv) (req : ChatRequest)
    (resp : ChatResponse) (n : Nat)
    (h : chat_completions env req = (.ok resp, n)) :
    resp.usage.total_tokens =
      resp.usage.prompt_tokens + resp.usage.completion_tokens ∧
    ∃ msgs k, normalizeMessages env.img req.messages = (.ok msgs, k) ∧
      resp.usage.prompt_tokens = (env.tokenizePrompt msgs).length ∧
      resp.usage.completion_tokens =
        ((env.generate (env.tokenizePrompt msgs) req.max_tokens).drop
          (env.tokenizePrompt msgs).length).length := by
  simp only [chat_completions] at h
  split at h
  · exact absurd h (by simp)
  · split at h
    · exact absurd h (by simp)
    · split at h
      · exact absurd h (by simp)
      · exact absurd h (by simp)
      · rename_i msgs k heq
        injection h with h1 h2
        injection h1 with h3
        subst h3
        exact ⟨rfl, _, _, heq, rfl, rfl⟩

/-- Closed instantiation of C1 at a concrete environment and request. -/
theorem usage_total_tokens_correct_witness :
    chatResp1.usage.total_tokens =
      chatResp1.usage.prompt_tokens + chatResp1.usage.completion_tokens ∧
    ∃ msgs k, normalizeMessages chatEnv1.img chatReq1.messages = (.ok msgs, k) ∧
      chatResp1.usage.prompt_tokens = (chatEnv1.tokenizePrompt msgs).length ∧
      chatResp1.usage.completion_tokens =
        ((chatEnv1.generate (chatEnv1.tokenizePrompt msgs) chatReq1.max_tokens).drop
          (chatEnv1.tokenizePrompt msgs).length).length :=
  usage_total_tokens_correct chatEnv1 chatReq1 chatResp1 1 rfl

/-! ## C2 -/

/-- C2: a chat-completions request (in the operating state: model and
processor loaded, no streaming) whose messages all either carry an
unsupported role (silently dropped) or yield no content part is rejected
with HTTP 400 and the generation capability is never invoked (the
invocation count is 0). -/
theorem chat_empty_messages_rejected (env : ChatEnv) (req : ChatRequest)
    (hM : env.modelLoaded = true) (hP : env.processorLoaded = true)
    (hS : req.stream = false)
    (h : ∀ m ∈ req.messages,
      supportedRole m.role = false ∨
        (processMessage env.img m).1 = Except.ok none) :
    chat_completions env req =
      (.error ⟨400, "No valid messages provided"⟩, 0) := by
  have h' : ∀ m ∈ req.messages, (processMessage env.img m).1 = Except.ok none := by
    intro m hm
    rcases h m hm with hr | hok
    · rw [processMessage_unsupported env.img m hr]
    · exact hok
  obtain ⟨k, hk⟩ := normalizeMessages_all_none env.img req.messages h'
  simp [chat_completions, hM, hP, hS, hk]

/-- Closed instantiation of C2: a request with one unsupported-role
message and one user message whose parts are all skipped is rejected
with 400 and zero generation calls. -/
theorem chat_empty_messages_rejected_witness :
    chat_completions chatEnv1 chatReq2 =
      (.error ⟨400, "No valid messages provided"⟩, 0) := by
  refine chat_empty_messages_rejected chatEnv1 chatReq2 rfl rfl rfl ?_
  intro m hm
  simp only [chatReq2, List.mem_cons, List.not_mem_nil, or_false] at hm
  rcases hm with rfl | rfl
  · exact Or.inl rfl
  · exact Or.inr rfl

/-! ## C3 -/

/-- C3: the dispatch loop makes at most `MAX_RETRIES = 3` attempts and
sleeps exactly once (for `RETRY_DELAY = 1` second) between consecutive
attempts, never after the last (sleeps + 1 = attempts made).  A non-200
response or raised exception is a failed attempt (`attemptOk _ = none`).
On the first success it returns the success envelope with the downstream
body; a target failing twice then succeeding yields success after exactly
3 attempts and 2 one-second delays; when all 3 attempts fail it returns
the failed envelope carrying the last attempt's failure message. -/
theorem dispatch_retry_behavior (f : Nat → AttemptOutcome) :
    (dispatch f).2.1 ≤ MAX_RETRIES ∧
    (dispatch f).2.2 + 1 = (dispatch f).2.1 ∧
    (∀ body, attemptOk (f 0) = some body →
       dispatch f = (successEnvelope body, 1, 0)) ∧
    (∀ body, attemptOk (f 0) = none → attemptOk (f 1) = none →
       attemptOk (f 2) = some body →
       dispatch f = (successEnvelope body, 3, 2) ∧ 2 * RETRY_DELAY = 2) ∧
    (attemptOk (f 0) = none → attemptOk (f 1) = none →
       attemptOk (f 2) = none →
       dispatch f = (failedEnvelope (attemptErrMsg (f 2)), 3, 2)) := by
  rcases h0 : attemptOk (f 0) with _ | b0
  · rcases h1 : attemptOk (f 1) with _ | b1
    · rcases h2 : attemptOk (f 2) with _ | b2
      · refine ⟨?_, ?_, ?_, ?_, ?_⟩ <;>
          simp [dispatch, runAttemptsAux, MAX_RETRIES, RETRY_DELAY, h0, h1, h2]
      · refine ⟨?_, ?_, ?_, ?_, ?_⟩ <;>
          simp [dispatch, runAttemptsAux, MAX_RETRIES, RETRY_DELAY, h0, h1, h2]
    · refine ⟨?_, ?_, ?_, ?_, ?_⟩ <;>
        simp [dispatch, runAttemptsAux, MAX_RETRIES, RETRY_DELAY, h0, h1]
  · refine ⟨?_, ?_, ?_, ?_, ?_⟩ <;>
      simp [dispatch, runAttemptsAux, MAX_RETRIES, RETRY_DELAY, h0]

/-- Closed instantiation of C3: the flaky target (two exceptions, then
HTTP 200) succeeds after 3 attempts and 2 delays; the always-500 target
fails after 3 attempts with the last attempt's message. -/
theorem dispatch_retry_behavior_witness :
    (dispatch attemptsFlaky = (successEnvelope (.str "body"), 3, 2) ∧
       2 * RETRY_DELAY = 2) ∧
    dispatch attemptsAllFail =
      (failedEnvelope (attemptErrMsg (attemptsAllFail 2)), 3, 2) :=
  ⟨(dispatch_retry_behavior attemptsFlaky).2.2.2.1 (.str "body") rfl rfl rfl,
   (dispatch_retry_behavior attemptsAllFail).2.2.2.2 rfl rfl rfl⟩

/-! ## C4 -/

/-- The RGBA special-case never leaves a bitmap in mode "RGBA". -/
theorem convertIfRGBA_mode_ne (img : Bitmap) :
    (convertIfRGBA img).mode ≠ "RGBA" := by
  unfold convertIfRGBA
  split
  · simp
  · assumption

/-- A single content part never contributes a canonical image part whose
mode is "RGBA". -/
theorem processOnePart_no_rgba (env : ImgEnv) (p : WirePart)
    (parts : List QwenPart) (n : Nat)
    (h : processOnePart env p = (Except.ok parts, n)) :
    ∀ b : Bitmap, QwenPart.image b ∈ parts → b.mode ≠ "RGBA" := by
  intro b hb
  cases p with
  | text t =>
    simp only [processOnePart, Prod.mk.injEq] at h
    obtain ⟨h1, -⟩ := h
    injection h1 with h1
    subst h1
    simp at hb
  | imageUrl u =>
    simp only [processOnePart] at h
    split at h
    · obtain ⟨h1, -⟩ := Prod.mk.injEq .. |>.mp h
      injection h1 with h1
      subst h1
      simp at hb
    · split at h
      · exact absurd h (by simp)
      · rename_i img m heq
        obtain ⟨h1, -⟩ := Prod.mk.injEq .. |>.mp h
        injection h1 with h1
        subst h1
        simp only [List.mem_singleton] at hb
        injection hb with hb
        subst hb
        exact convertIfRGBA_mode_ne img
  | imageUrlStr s =>
    simp only [processOnePart] at h
    split at h
    · obtain ⟨h1, -⟩ := Prod.mk.injEq .. |>.mp h
      injection h1 with h1
      subst h1
      simp at hb
    · split at h
      · exact absurd h (by simp)
      · rename_i img m heq
        obtain ⟨h1, -⟩ := Prod.mk.injEq .. |>.mp h
        injection h1 with h1
        subst h1
        simp only [List.mem_singleton] at hb
        injection hb with hb
        subst hb
        exact convertIfRGBA_mode_ne img
  | other =>
    simp only [processOnePart, Prod.mk.injEq] at h
    obtain ⟨h1, -⟩ := h
    injection h1 with h1
    subst h1
    simp at hb

/-- Counterexample to C4 as stated: a decoded image in the alpha-bearing
mode "LA" (grayscale + alpha) is NOT converted — only the exact mode
"RGBA" is special-cased — so an alpha-bearing bitmap is handed to the
generation capability unchanged. -/
theorem alpha_passthrough_counterexample :
    modeHasAlpha "LA" = true ∧
    processParts imgEnvLA
        [WirePart.imageUrl (some "data:image/png;base64,AA==")] =
      (Except.ok [QwenPart.image ⟨"LA", [7]⟩], 0) ∧
    convertIfRGBA ⟨"LA", [7]⟩ = ⟨"LA", [7]⟩ :=
  ⟨rfl, rfl, rfl⟩

/-- C4 (amended): every decoded image whose color mode is exactly "RGBA"
is converted to opaque RGB before being placed into a canonical message
part; images in any other mode — including other alpha-bearing modes such
as "LA" — pass through unchanged.  Consequently no canonical image part
ever has mode "RGBA". -/
theorem rgba_conversion_amended :
    (∀ img : Bitmap, img.mode = "RGBA" → (convertIfRGBA img).mode = "RGB") ∧
    (∀ img : Bitmap, img.mode ≠ "RGBA" → convertIfRGBA img = img) ∧
    (∀ (env : ImgEnv) (l : List WirePart) (res : List QwenPart) (n : Nat),
       processParts env l = (Except.ok res, n) →
       ∀ b : Bitmap, QwenPart.image b ∈ res → b.mode ≠ "RGBA") := by
  refine ⟨?_, ?_, ?_⟩
  · intro img h
    simp [convertIfRGBA, h]
  · intro img h
    simp [convertIfRGBA, h]
  · intro env l
    induction l with
    | nil =>
      intro res n h b hb
      simp only [processParts, Prod.mk.injEq] at h
      obtain ⟨h1, -⟩ := h
      injection h1 with h1
      subst h1
      simp at hb
    | cons p rest ih =>
      intro res n h b hb
      simp only [processParts] at h
      split at h
      · exact absurd h (by simp)
      · rename_i parts m heq
        split at h
        · exact absurd h (by simp)
        · rename_i more k heq2
          obtain ⟨h1, -⟩ := Prod.mk.injEq .. |>.mp h
          injection h1 with h1
          subst h1
          rcases List.mem_append.mp hb with hmem | hmem
          · exact processOnePart_no_rgba env p parts m heq b hmem
          · exact ih more k heq2 b hmem

/-- Closed instantiation of the amended C4: an RGBA bitmap becomes RGB;
an "L" (no alpha) bitmap passes through unchanged. -/
theorem rgba_conversion_amended_witness :
    (convertIfRGBA ⟨"RGBA", [3]⟩).mode = "RGB" ∧
    convertIfRGBA ⟨"L", [3]⟩ = ⟨"L", [3]⟩ :=
  ⟨rgba_conversion_amended.1 ⟨"RGBA", [3]⟩ rfl,
   rgba_conversion_amended.2.1 ⟨"L", [3]⟩ (by simp)⟩

/-! ## C6 -/

/-- C6: for every image reference beginning with the `data:image` scheme
prefix, the resolver performs no network GET (and its result does not
depend on the network at all), splits on the first comma into header and
payload, base64-decodes the payload and decodes the bytes as an image;
every failure (no comma, bad base64, undecodable bytes) is the
"Failed to fetch image" error with HTTP status 400, never silently
ignored, and a successful decode returns the bitmap. -/
theorem data_url_resolution (env : ImgEnv) (url : String)
    (h : strStartsWith url "data:image" = true) :
    (fetch_image_from_url env url).2 = 0 ∧
    (∀ g, fetch_image_from_url { env with httpGet := g } url =
       fetch_image_from_url env url) ∧
    (∀ e, (fetch_image_from_url env url).1 = .error e → e.status = 400) ∧
    (splitFirstComma url = none →
       (fetch_image_from_url env url).1 =
         .error (fetchErr "not enough values to unpack")) ∧
    (∀ hd payload, splitFirstComma url = some (hd, payload) →
       (env.b64decode payload = none →
          (fetch_image_from_url env url).1 =
            .error (fetchErr "invalid base64")) ∧
       (∀ bytes, env.b64decode payload = some bytes →
          (env.imageOpen bytes = none →
             (fetch_image_from_url env url).1 =
               .error (fetchErr "cannot identify image file")) ∧
          (∀ img, env.imageOpen bytes = some img →
             (fetch_image_from_url env url).1 = .ok img))) := by
  refine ⟨?_, ?_, ?_, ?_, ?_⟩
  · rcases hs : splitFirstComma url with _ | ⟨hd, payload⟩
    · simp [fetch_image_from_url, h, hs]
    · rcases hb : env.b64decode payload with _ | bytes
      · simp [fetch_image_from_url, h, hs, hb]
      · rcases hi : env.imageOpen bytes with _ | img <;>
          simp [fetch_image_from_url, h, hs, hb, hi]
  · intro g
    simp only [fetch_image_from_url, h, if_true]
  · intro e he
    rcases hs : splitFirstComma url with _ | ⟨hd, payload⟩
    · have hv : (fetch_image_from_url env url).1 =
          .error (fetchErr "not enough values to unpack") := by
        simp [fetch_image_from_url, h, hs]
      rw [hv] at he
      injection he with he
      rw [← he]
      rfl
    · rcases hb : env.b64decode payload with _ | bytes
      · have hv : (fetch_image_from_url env url).1 =
            .error (fetchErr "invalid base64") := by
          simp [fetch_image_from_url, h, hs, hb]
        rw [hv] at he
        injection he with he
        rw [← he]
        rfl
      · rcases hi : env.imageOpen bytes with _ | img
        · have hv : (fetch_image_from_url env url).1 =
              .error (fetchErr "cannot identify image file") := by
            simp [fetch_image_from_url, h, hs, hb, hi]
          rw [hv] at he
          injection he with he
          rw [← he]
          rfl
        · have hv : (fetch_image_from_url env url).1 = .ok img := by
            simp [fetch_image_from_url, h, hs, hb, hi]
          rw [hv] at he
          exact absurd he (by simp)
  · intro hs
    simp [fetch_image_from_url, h, hs]
  · intro hd payload hs
    refine ⟨?_, ?_⟩
    · intro hb
      simp [fetch_image_from_url, h, hs, hb]
    · intro bytes hb
      refine ⟨?_, ?_⟩
      · intro hi
        simp [fetch_image_from_url, h, hs, hb, hi]
      · intro img hi
        simp [fetch_image_from_url, h, hs, hb, hi]

/-- Closed instantiation of C6: a valid-looking data URL resolved in an
environment whose decoder yields an RGBA bitmap makes no network call
and returns the bitmap. -/
theorem data_url_resolution_witness :
    (fetch_image_from_url imgEnvRGBA "data:image/png;base64,AA==").2 = 0 ∧
    (fetch_image_from_url imgEnvRGBA "data:image/png;base64,AA==").1 =
      .ok ⟨"RGBA", [3]⟩ :=
  ⟨(data_url_resolution imgEnvRGBA "data:image/png;base64,AA==" rfl).1,
   (((data_url_resolution imgEnvRGBA "data:image/png;base64,AA==" rfl).2.2.2.2
      "data:image/png;base64" "AA==" rfl).2 [3] rfl).2 ⟨"RGBA", [3]⟩ rfl⟩

/-! ## C10 -/

/-- C10: a content part of type `image_url` whose nested `url` field is
missing or empty is silently skipped: it contributes no canonical part,
no fetch is attempted (network count 0), no error is raised, and the
enclosing part list still contributes everything the other parts
produce. -/
theorem empty_image_url_skipped (env : ImgEnv) (u : Option String)
    (h : u.getD "" = "") :
    processOnePart env (WirePart.imageUrl u) = (.ok [], 0) ∧
    ∀ pre post,
      processParts env (pre ++ WirePart.imageUrl u :: post) =
        processParts env (pre ++ post) := by
  have h1 : processOnePart env (WirePart.imageUrl u) = (.ok [], 0) := by
    simp [processOnePart, h]
  refine ⟨h1, ?_⟩
  intro pre post
  induction pre with
  | nil =>
    rcases hp : processParts env post with ⟨r, k⟩
    cases r <;> simp [processParts, h1, hp]
  | cons p rest ih =>
    rcases hq : processOnePart env p with ⟨r, n⟩
    cases r <;> simp [processParts, hq, ih]

/-- Closed instantiation of C10: a missing-`url` image part between two
text parts is skipped and the message's other parts survive. -/
theorem empty_image_url_skipped_witness :
    processOnePart imgEnvRGBA (WirePart.imageUrl none) = (.ok [], 0) ∧
    processParts imgEnvRGBA
        [WirePart.text (some "a"), WirePart.imageUrl none,
         WirePart.text (some "b")] =
      processParts imgEnvRGBA
        [WirePart.text (some "a"), WirePart.text (some "b")] :=
  ⟨(empty_image_url_skipped imgEnvRGBA none rfl).1,
   (empty_image_url_skipped imgEnvRGBA none rfl).2
     [WirePart.text (some "a")] [WirePart.text (some "b")]⟩

/-! ## C7 -/

/-- C7: a simplified-shape job input (no `messages` key) that lacks an
`image_url` key returns the failed envelope with error
"Missing required field: image_url" with zero HTTP attempts (and zero
sleeps). -/
theorem missing_image_url_fails_fast (f : Nat → AttemptOutcome) (input : Json)
    (h1 : input.get "messages" = none) (h2 : input.get "image_url" = none) :
    process_request f input =
      (failedEnvelope "Missing required field: image_url", 0, 0) := by
  simp [process_request, buildPayload, h1, h2, Json.truthy]

/-- Closed instantiation of C7 at a text-only job input and an
always-failing dispatch target. -/
theorem missing_image_url_fails_fast_witness :
    process_request attemptsAllFail jobInputNoUrl =
      (failedEnvelope "Missing required field: image_url", 0, 0) :=
  missing_image_url_fails_fast attemptsAllFail jobInputNoUrl rfl rfl

/-! ## C8 -/

/-- C8: the orchestrator discriminates job shapes by the presence of a
`messages` key: such an input is forwarded unchanged as the payload,
while a simplified-shape input that passes validation is translated into
an OpenAI-shape request containing exactly one user message whose content
list has the text part strictly before the image_url part, with
`max_tokens` defaulting to 512 when absent (`getD` of the input's field). -/
theorem job_shape_translation (input : Json) :
    (∀ v, input.get "messages" = some v → buildPayload input = .ok input) ∧
    (input.get "messages" = none → ∀ p, buildPayload input = Except.ok p →
       ((input.get "image_url").getD .null).truthy = true ∧
       ∃ m, p.get "messages" = some (.arr [m]) ∧
         m.get "role" = some (.str "user") ∧
         m.get "content" = some (.arr
           [.obj [("type", .str "text"),
                  ("text", (input.get "text").getD (.str "Describe this image"))],
            .obj [("type", .str "image_url"),
                  ("image_url",
                   .obj [("url", (input.get "image_url").getD .null)])]]) ∧
         p.get "max_tokens" = some ((input.get "max_tokens").getD (.num 512))) := by
  constructor
  · intro v hv
    simp [buildPayload, hv]
  · intro hn p hp
    simp only [buildPayload, hn] at hp
    split at hp
    · rename_i htruthy
      injection hp with hp
      subst hp
      refine ⟨htruthy, ?_⟩
      exact ⟨_, rfl, rfl, rfl, rfl⟩
    · exact absurd hp (by simp)

/-- Closed instantiation of C8: an OpenAI-shape input is forwarded
unchanged, and a simplified input without `max_tokens` is translated with
the text part first, the image part second and `max_tokens` 512. -/
theorem job_shape_translation_witness :
    buildPayload jobInputOpenAI = .ok jobInputOpenAI ∧
    (((jobInputSimple.get "image_url").getD .null).truthy = true ∧
     ∃ m, (simplePayload (.str "what is this")
             (.str "http://example.com/img.png") (.num 512)).get "messages" =
           some (.arr [m]) ∧
       m.get "role" = some (.str "user") ∧
       m.get "content" = some (.arr
         [.obj [("type", .str "text"),
                ("text", (jobInputSimple.get "text").getD
                   (.str "Describe this image"))],
          .obj [("type", .str "image_url"),
                ("image_url",
                 .obj [("url", (jobInputSimple.get "image_url").getD .null)])]]) ∧
       (simplePayload (.str "what is this")
           (.str "http://example.com/img.png") (.num 512)).get "max_tokens" =
         some ((jobInputSimple.get "max_tokens").getD (.num 512))) :=
  ⟨(job_shape_translation jobInputOpenAI).1 (.arr []) rfl,
   (job_shape_translation jobInputSimple).2 rfl
     (simplePayload (.str "what is this")
       (.str "http://example.com/img.png") (.num 512)) rfl⟩

/-! ## C9 -/

/-- If every poll in the window fails, the loop times out having made
exactly `n` polls. -/
theorem waitFuel_timeout (polls : Nat → PollOutcome) :
    ∀ (n idx : Nat), (∀ j, j < n → pollGood (polls (idx + j)) = false) →
    waitFuel polls idx n = (false, idx + n) := by
  intro n
  induction n with
  | zero => intro idx h; simp [waitFuel]
  | succ n ih =>
    intro idx h
    have h0 : pollGood (polls idx) = false := by
      simpa using h 0 (Nat.succ_pos n)
    have hrest : ∀ j, j < n → pollGood (polls (idx + 1 + j)) = false := by
      intro j hj
      have := h (j + 1) (Nat.succ_lt_succ hj)
      have harith : idx + (j + 1) = idx + 1 + j := by omega
      rwa [harith] at this
    have harith : idx + 1 + n = idx + (n + 1) := by omega
    simp only [waitFuel, h0, Bool.false_eq_true, if_false]
    rw [ih (idx + 1) hrest, harith]

/-- If polls before index `idx + k` fail and poll `idx + k` succeeds
(within the window), the loop succeeds right after that poll. -/
theorem waitFuel_success (polls : Nat → PollOutcome) :
    ∀ (n idx k : Nat), k < n →
    (∀ j, j < k → pollGood (polls (idx + j)) = false) →
    pollGood (polls (idx + k)) = true →
    waitFuel polls idx n = (true, idx + k + 1) := by
  intro n
  induction n with
  | zero => intro idx k hk; exact absurd hk (Nat.not_lt_zero k)
  | succ n ih =>
    intro idx k hk hbad hgood
    cases k with
    | zero =>
      rw [Nat.add_zero] at hgood
      simp [waitFuel, hgood]
    | succ k =>
      have h0 : pollGood (polls idx) = false := by
        simpa using hbad 0 (Nat.succ_pos k)
      have hrest : ∀ j, j < k → pollGood (polls (idx + 1 + j)) = false := by
        intro j hj
        have := hbad (j + 1) (Nat.succ_lt_succ hj)
        have harith : idx + (j + 1) = idx + 1 + j := by omega
        rwa [harith] at this
      have hgood' : pollGood (polls (idx + 1 + k)) = true := by
        have harith : idx + (k + 1) = idx + 1 + k := by omega
        rwa [harith] at hgood
      have harith : idx + 1 + k + 1 = idx + (k + 1) + 1 := by omega
      simp only [waitFuel, h0, Bool.false_eq_true, if_false]
      rw [ih (idx + 1) k (Nat.lt_of_succ_lt_succ hk) hrest hgood', harith]

/-- If the loop reports ready, the last poll made was good and every
earlier poll in the run was bad. -/
theorem waitFuel_true_elim (polls : Nat → PollOutcome) :
    ∀ (n idx k : Nat), waitFuel polls idx n = (true, k) →
    idx < k ∧ pollGood (polls (k - 1)) = true ∧
      ∀ j, idx ≤ j → j < k - 1 → pollGood (polls j) = false := by
  intro n
  induction n with
  | zero =>
    intro idx k h
    simp [waitFuel] at h
  | succ n ih =>
    intro idx k h
    by_cases hg : pollGood (polls idx) = true
    · simp only [waitFuel, hg, if_true] at h
      obtain ⟨-, hk⟩ := Prod.mk.injEq .. |>.mp h
      subst hk
      refine ⟨Nat.lt_succ_self idx, ?_, ?_⟩
      · simpa using hg
      · intro j hj1 hj2
        omega
    · have hg' : pollGood (polls idx) = false := by
        simpa using hg
      simp only [waitFuel, hg', Bool.false_eq_true, if_false] at h
      obtain ⟨h1, h2, h3⟩ := ih (idx + 1) k h
      refine ⟨by omega, h2, ?_⟩
      intro j hj1 hj2
      rcases Nat.eq_or_lt_of_le hj1 with hj | hlt
      · rw [← hj]; exact hg'
      · exact h3 j hlt hj2

/-- C9: the await-ready phase polls every `POLL_INTERVAL = 2` seconds up
to a configurable maximum wait defaulting to `DEFAULT_MAX_WAIT = 60`
seconds (30 polls).  It succeeds only on a poll whose single response
reports both the healthy flag and the model-loaded flag (`pollGood`): on
success the final poll is good and every earlier poll was bad.  It
returns not-ready on timeout, and a downstream that becomes
healthy+loaded on the 3rd poll and not before yields success after
exactly 3 polls, not before. -/
theorem wait_for_service_spec (f : Nat → PollOutcome) :
    (pollGood (f 0) = false → pollGood (f 1) = false → pollGood (f 2) = true →
       wait_for_service f DEFAULT_MAX_WAIT = (true, 3)) ∧
    ((∀ i, i < numPolls DEFAULT_MAX_WAIT → pollGood (f i) = false) →
       wait_for_service f DEFAULT_MAX_WAIT =
         (false, numPolls DEFAULT_MAX_WAIT)) ∧
    (∀ maxWait k, wait_for_service f maxWait = (true, k) →
       0 < k ∧ pollGood (f (k - 1)) = true ∧
         ∀ j, j < k - 1 → pollGood (f j) = false) ∧
    numPolls DEFAULT_MAX_WAIT = 30 ∧ POLL_INTERVAL = 2 ∧
    DEFAULT_MAX_WAIT = 60 := by
  refine ⟨?_, ?_, ?_, rfl, rfl, rfl⟩
  · intro h0 h1 h2
    have hbad : ∀ j, j < 2 → pollGood (f (0 + j)) = false := by
      intro j hj
      interval_cases j
      · simpa using h0
      · simpa using h1
    have := waitFuel_success f (numPolls DEFAULT_MAX_WAIT) 0 2
      (by norm_num [numPolls, POLL_INTERVAL, DEFAULT_MAX_WAIT]) hbad
      (by simpa using h2)
    simpa [wait_for_service] using this
  · intro h
    have hbad : ∀ j, j < numPolls DEFAULT_MAX_WAIT →
        pollGood (f (0 + j)) = false := by
      intro j hj
      simpa using h j hj
    have := waitFuel_timeout f (numPolls DEFAULT_MAX_WAIT) 0 hbad
    simpa [wait_for_service] using this
  · intro maxWait k h
    obtain ⟨h1, h2, h3⟩ :=
      waitFuel_true_elim f (numPolls maxWait) 0 k h
    exact ⟨by omega, h2, fun j hj => h3 j (Nat.zero_le j) hj⟩

/-- Closed instantiation of C9: the downstream that reports 503 twice and
healthy+loaded on the 3rd poll makes the await-ready phase succeed after
exactly 3 polls. -/
theorem wait_for_service_spec_witness :
    wait_for_service pollsThird DEFAULT_MAX_WAIT = (true, 3) :=
  (wait_for_service_spec pollsThird).1 rfl rfl rfl

/-! ## C5 -/

/-- C5 (modelled from the spec, as the simple endpoint is absent from
`src/`): for every valid simple-shape request the envelope's
`text_input` equals exactly the submitted text, unmodified; the endpoint
answers 503 (`unavailable`) exactly when the model capability is not
fully loaded, and any other internal failure yields 500
(`internalError`) with a message string — every outcome is one of these
three envelope shapes. -/
theorem simple_endpoint_text_echo (env : ChatEnv)
    (dec : List Nat → Option Bitmap) (mt : Nat) (req : SimpleRequest) :
    ((!env.modelLoaded || !env.processorLoaded) = true →
       predict env dec mt req = .unavailable) ∧
    (∀ ti mo, predict env dec mt req = .ok ti mo → ti = req.text) ∧
    (predict env dec mt req = .unavailable ∨
       (∃ msg, predict env dec mt req = .internalError msg) ∨
       (∃ mo, predict env dec mt req = .ok req.text mo)) := by
  refine ⟨?_, ?_, ?_⟩
  · intro h
    simp [predict, h]
  · intro ti mo hok
    simp only [predict] at hok
    split at hok
    · exact absurd hok (by simp)
    · split at hok
      · exact absurd hok (by simp)
      · injection hok with h1 h2
        exact h1.symm
  · simp only [predict]
    split
    · exact Or.inl rfl
    · split
      · exact Or.inr (Or.inl ⟨_, rfl⟩)
      · exact Or.inr (Or.inr ⟨_, rfl⟩)

/-- Closed instantiation of C5: with the loaded environment the envelope
echoes the submitted text; with an unloaded environment the endpoint is
unavailable. -/
theorem simple_endpoint_text_echo_witness :
    (∀ ti mo,
       predict chatEnv1 (fun _ => some ⟨"RGB", [1]⟩) 16 ⟨[5], "describe"⟩ =
         .ok ti mo → ti = "describe") ∧
    predict { chatEnv1 with modelLoaded := false }
        (fun _ => some ⟨"RGB", [1]⟩) 16 ⟨[5], "describe"⟩ = .unavailable :=
  ⟨(simple_endpoint_text_echo chatEnv1 (fun _ => some ⟨"RGB", [1]⟩) 16
      ⟨[5], "describe"⟩).2.1,
   (simple_endpoint_text_echo { chatEnv1 with modelLoaded := false }
      (fun _ => some ⟨"RGB", [1]⟩) 16 ⟨[5], "describe"⟩).1 rfl⟩

end Holo
